import Mathlib

/-!
Verification of the plugin subsystem of `theblueskies/mattermost-server`:
the lifecycle reconciler (`ActivatePlugins`), the bundle installer
(`InstallPlugin`), the plugin HTTP request router (`ServePluginRequest`),
the namespaced key-value store (`getKeyHash`, `SetPluginKey`,
`GetPluginKey`, `DeletePluginKey` in `app/plugin.go`) and the SQL plugin
store (`SaveOrUpdate`, `Get`, `Delete` in `store/sqlstore/plugin_store.go`).

Go strings are modelled as Lean `String`; Go byte slices as `List Nat`
(each entry < 256); Go maps as association lists; the database, the
filesystem and the plugin environment as explicit oracles/state so that
each Go function becomes a pure Lean function of its inputs.
-/

namespace Mattermost

/-- Model of `model.AppError` (the fields used by these sources:
the calling location, the i18n id, the detailed error, and the HTTP
status code; the i18n parameter map is dropped since no property here
depends on it). -/
structure AppError where
  location : String
  id : String
  details : String
  statusCode : Nat
deriving DecidableEq

/-- Model of `model.PluginKeyValue` (`src/unnamed/part_000`): the hashed
key and the value bytes. -/
structure PluginKeyValue where
  key : String
  value : List Nat
deriving DecidableEq

/-- `model.KEY_VALUE_KEY_MAX_RUNES`. -/
def KEY_VALUE_KEY_MAX_RUNES : Nat := 128

/-- `PluginKeyValue.IsValid` (`src/unnamed/part_000`): the key must be
non-empty and at most 128 runes.  Go's `utf8.RuneCountInString` is the
rune count, i.e. `String.length`. -/
def PluginKeyValue.isValid (kv : PluginKeyValue) : Option AppError :=
  if kv.key.isEmpty || decide (kv.key.length > KEY_VALUE_KEY_MAX_RUNES) then
    some ⟨"PluginKeyValue.IsValid", "model.plugin_key_value.is_valid.key.app_error",
          "key=" ++ kv.key, 400⟩
  else
    none

/-! ## The key hasher (`getKeyHash`, `src/app/plugin.go:434`)

`getKeyHash` computes the 128-bit FNV-1a hash of the UTF-8 bytes of
`pluginId + key` and base64-encodes the 16 big-endian digest bytes
(`hash/fnv` + `encoding/base64` standard encoding in Go). -/

/-- UTF-8 encoding of one character (what Go's `[]byte(string)` yields
per rune). -/
def utf8Bytes (c : Char) : List Nat :=
  let n := c.toNat
  if n < 0x80 then [n]
  else if n < 0x800 then
    [0xC0 + n / 0x40, 0x80 + n % 0x40]
  else if n < 0x10000 then
    [0xE0 + n / 0x1000, 0x80 + n / 0x40 % 0x40, 0x80 + n % 0x40]
  else
    [0xF0 + n / 0x40000, 0x80 + n / 0x1000 % 0x40, 0x80 + n / 0x40 % 0x40, 0x80 + n % 0x40]

/-- The UTF-8 bytes of a string. -/
def strBytes (s : String) : List Nat :=
  (s.data.map utf8Bytes).flatten

/-- The 128-bit FNV prime `2^88 + 2^8 + 0x3b` (Go `hash/fnv`). -/
def fnvPrime128 : Nat := 2 ^ 88 + 2 ^ 8 + 0x3b

/-- The 128-bit FNV-1a offset basis (Go `hash/fnv`). -/
def fnvOffset128 : Nat := 0x6c62272e07bb014262b821756295c58d

/-- FNV-1a over a byte list: xor in each byte, multiply by the prime,
modulo `2^128`. -/
def fnv1a128 (bs : List Nat) : Nat :=
  bs.foldl (fun h b => ((h ^^^ b) * fnvPrime128) % 2 ^ 128) fnvOffset128

/-- The big-endian `w`-byte representation of `n` (Go `Sum(nil)` appends
the 128-bit state high word then low word, big-endian). -/
def natToBE (w n : Nat) : List Nat :=
  (List.range w).map (fun i => n / 2 ^ ((w - 1 - i) * 8) % 256)

/-- The base64 standard alphabet (`encoding/base64.StdEncoding`). -/
def base64Table : List Char :=
  "ABCDEFGHIJKLMNOPQRSTUVWXYZabcdefghijklmnopqrstuvwxyz0123456789+/".data

/-- One base64 digit. -/
def b64c (n : Nat) : Char := base64Table.getD n 'A'

/-- Base64 standard encoding with `=` padding. -/
def base64Encode : List Nat → List Char
  | b1 :: b2 :: b3 :: rest =>
      b64c (b1 / 4) :: b64c (b1 % 4 * 16 + b2 / 16) ::
      b64c (b2 % 16 * 4 + b3 / 64) :: b64c (b3 % 64) :: base64Encode rest
  | [b1, b2] => [b64c (b1 / 4), b64c (b1 % 4 * 16 + b2 / 16), b64c (b2 % 16 * 4), '=']
  | [b1] => [b64c (b1 / 4), b64c (b1 % 4 * 16), '=', '=']
  | [] => []

/-- `getKeyHash` (`src/app/plugin.go:434-446`): reject an empty plugin id
or key with a 400 error, otherwise hash `pluginId + key` with 128-bit
FNV-1a and base64-encode the digest. -/
def getKeyHash (pluginId key : String) : Except AppError String :=
  if pluginId.isEmpty then
    .error ⟨"getKeyHash", "app.plugin.key_value.plugin_id.app_error", "", 400⟩
  else if key.isEmpty then
    .error ⟨"getKeyHash", "app.plugin.key_value.key.app_error", "", 400⟩
  else
    .ok (String.mk (base64Encode (natToBE 16 (fnv1a128 (strBytes (pluginId ++ key))))))

deriving instance DecidableEq for Except

/-! ## The SQL plugin store (`src/store/sqlstore/plugin_store.go`)

The database master/replica are modelled as oracles: the outcome of the
gorp `Update`/`Insert`/`Exec` calls are inputs of the embedded function,
and the table behind `Get`/`Delete` is an explicit list of rows. -/

/-- A database-layer error (the `error` returned by gorp). -/
structure DbErr where
  msg : String
deriving DecidableEq

/-- Go `result.Data` is `interface{}`; the plugin store stores either the
saved/fetched row or `true` (for `Delete`). -/
inductive StoreData where
  | kv (k : PluginKeyValue)
  | boolean (b : Bool)
deriving DecidableEq

/-- Model of `store.StoreResult`: the error and data slots. -/
structure StoreResult where
  err : Option AppError := none
  data : Option StoreData := none
deriving DecidableEq

/-- `model.DATABASE_DRIVER_POSTGRES`. -/
def DATABASE_DRIVER_POSTGRES : String := "postgres"

/-- `model.DATABASE_DRIVER_MYSQL`. -/
def DATABASE_DRIVER_MYSQL : String := "mysql"

/-- The database calls `SaveOrUpdate` can issue, in order. -/
inductive DbAction where
  | update
  | insert
  | execUpsert
deriving DecidableEq

/-- The `StoreResult` built by every error branch of `SaveOrUpdate`. -/
def pluginSaveErr (details : String) : AppError :=
  ⟨"SqlPluginStore.SaveOrUpdate", "store.sql_plugin_store.save.app_error", details, 500⟩

/-- `SqlPluginStore.SaveOrUpdate` (`src/store/sqlstore/plugin_store.go:34-67`).
`updateRes` is the outcome of `GetMaster().Update(kv)` (rows affected),
`insertRes` of `GetMaster().Insert(kv)`, `upsertRes` of the MySQL
`INSERT ... ON DUPLICATE KEY UPDATE` Exec, and `isUnique` is
`IsUniqueConstraintError(err, ["PRIMARY", "Key", "PKey"])`.  Returns the
store result together with the database calls actually issued. -/
def saveOrUpdate (driver : String) (updateRes : Except DbErr Nat)
    (insertRes : Except DbErr Unit) (upsertRes : Except DbErr Unit)
    (isUnique : DbErr → Bool) (kv : PluginKeyValue) : StoreResult × List DbAction :=
  match kv.isValid with
  | some e => ({ err := some e }, [])
  | none =>
    if driver = DATABASE_DRIVER_POSTGRES then
      match updateRes with
      | .error e => ({ err := some (pluginSaveErr e.msg) }, [.update])
      | .ok rowsAffected =>
        if rowsAffected = 0 then
          match insertRes with
          | .error e =>
            if isUnique e = false then
              ({ err := some (pluginSaveErr e.msg) }, [.update, .insert])
            else
              ({ data := some (.kv kv) }, [.update, .insert])
          | .ok _ => ({ data := some (.kv kv) }, [.update, .insert])
        else
          ({ data := some (.kv kv) }, [.update])
    else if driver = DATABASE_DRIVER_MYSQL then
      match upsertRes with
      | .error e => ({ err := some (pluginSaveErr e.msg) }, [.execUpsert])
      | .ok _ => ({ data := some (.kv kv) }, [.execUpsert])
    else
      ({ data := some (.kv kv) }, [])

/-- The row the `SELECT ... WHERE PKey = :Key` of `Get` finds, if any. -/
def tableFind (table : List PluginKeyValue) (key : String) : Option PluginKeyValue :=
  table.find? (fun r => r.key == key)

/-- `SqlPluginStore.Get` (`src/store/sqlstore/plugin_store.go:69-83`).
`dbFail` models a failing database connection (`SelectOne` returning an
error other than `sql.ErrNoRows`); when the connection works, an absent
row is `sql.ErrNoRows`, mapped to a 404 error, and a present row is
returned as data. -/
def sqlPluginGet (table : List PluginKeyValue) (dbFail : Option String)
    (key : String) : StoreResult :=
  match dbFail with
  | some m =>
    { err := some ⟨"SqlPluginStore.Get", "store.sql_plugin_store.get.app_error",
                   "key=" ++ key ++ ", err=" ++ m, 500⟩ }
  | none =>
    match tableFind table key with
    | none =>
      { err := some ⟨"SqlPluginStore.Get", "store.sql_plugin_store.get.app_error",
                     "key=" ++ key ++ ", err=sql: no rows in result set", 404⟩ }
    | some r => { data := some (.kv r) }

/-- `SqlPluginStore.Delete` (`src/store/sqlstore/plugin_store.go:85-93`).
The `DELETE ... WHERE PKey = :Key` Exec removes any matching rows and
succeeds whether or not a row existed; only a database failure is an
error.  Returns the store result and the table after the statement. -/
def sqlPluginDelete (table : List PluginKeyValue) (dbFail : Option String)
    (key : String) : StoreResult × List PluginKeyValue :=
  match dbFail with
  | some m =>
    ({ err := some ⟨"SqlPluginStore.Delete", "store.sql_plugin_store.delete.app_error",
                    "key=" ++ key ++ ", err=" ++ m, 500⟩ }, table)
  | none =>
    ({ data := some (.boolean true) }, table.filter (fun r => r.key != key))

/-! ## The app-level key-value operations (`src/app/plugin.go:448-502`) -/

/-- Which store methods an app-level key-value operation invoked. -/
inductive StoreCall where
  | saveOrUpdateCall
  | getCall
  | deleteCall
deriving DecidableEq

/-- `App.SetPluginKey` (`src/app/plugin.go:448-466`): hash the key,
returning the hash error without touching the store, otherwise call
`SaveOrUpdate` with the hashed record and return its error (if any). -/
def setPluginKey (pluginId key : String) (value : List Nat) (driver : String)
    (updateRes : Except DbErr Nat) (insertRes : Except DbErr Unit)
    (upsertRes : Except DbErr Unit) (isUnique : DbErr → Bool) :
    Option AppError × List StoreCall :=
  match getKeyHash pluginId key with
  | .error e => (some e, [])
  | .ok h =>
    ((saveOrUpdate driver updateRes insertRes upsertRes isUnique ⟨h, value⟩).1.err,
     [.saveOrUpdateCall])

/-- `App.GetPluginKey` (`src/app/plugin.go:468-487`): hash the key,
returning the hash error without touching the store; a store error with
status 404 becomes a `nil` value with no error; any other store error is
returned; otherwise the row's value bytes are returned. -/
def getPluginKey (pluginId key : String) (table : List PluginKeyValue)
    (dbFail : Option String) : Except AppError (Option (List Nat)) × List StoreCall :=
  match getKeyHash pluginId key with
  | .error e => (.error e, [])
  | .ok h =>
    let r := sqlPluginGet table dbFail h
    match r.err with
    | some e =>
      if e.statusCode = 404 then (.ok none, [.getCall])
      else (.error e, [.getCall])
    | none =>
      match r.data with
      | some (.kv kv) => (.ok (some kv.value), [.getCall])
      | _ => (.ok none, [.getCall])

/-- `App.DeletePluginKey` (`src/app/plugin.go:489-502`): hash the key,
returning the hash error without touching the store, otherwise call the
store `Delete` and return its error (if any) along with the resulting
table. -/
def deletePluginKey (pluginId key : String) (table : List PluginKeyValue)
    (dbFail : Option String) :
    (Option AppError × List PluginKeyValue) × List StoreCall :=
  match getKeyHash pluginId key with
  | .error e => ((some e, table), [])
  | .ok h =>
    let r := sqlPluginDelete table dbFail h
    ((r.1.err, r.2), [.deleteCall])

/-! ## The plugin request router (`App.ServePluginRequest`, `src/app/plugin.go:370-417`)

The HTTP request is modelled with its headers (canonical-key association
list, Go's `Header.Get`/`Set`/`Del` all canonicalize consistently, and
the `Cookie` header is modelled as the separate cookie list that Go's
`r.Cookies()`/`r.AddCookie` maintain), its cookies, its query values and
its method.  `a.GetSession` is an oracle. -/

/-- Modelled from the spec: the credential header/cookie/query names.
These are `model` package constants (`model.HEADER_AUTH` etc.) whose
definitions are not among the sources; the spec describes them as "an
authorization header bearer/token scheme, a session cookie ..., or a
query parameter". -/
def HEADER_AUTH : String := "Authorization"

/-- Modelled from the spec: `model.HEADER_BEARER`. -/
def HEADER_BEARER : String := "BEARER"

/-- Modelled from the spec: `model.HEADER_TOKEN`. -/
def HEADER_TOKEN : String := "token"

/-- Modelled from the spec: `model.HEADER_REQUESTED_WITH`. -/
def HEADER_REQUESTED_WITH : String := "X-Requested-With"

/-- Modelled from the spec: `model.HEADER_REQUESTED_WITH_XML`. -/
def HEADER_REQUESTED_WITH_XML : String := "XMLHttpRequest"

/-- Modelled from the spec: `model.SESSION_COOKIE_TOKEN`. -/
def SESSION_COOKIE_TOKEN : String := "MMAUTHTOKEN"

/-- An HTTP cookie (name and value). -/
structure Cookie where
  name : String
  value : String
deriving DecidableEq

/-- The parts of an `http.Request` that `ServePluginRequest` reads or
writes. -/
structure PRequest where
  method : String
  headers : List (String × String)
  cookies : List Cookie
  query : List (String × String)
deriving DecidableEq

/-- Go `Header.Get`: the first value for the key, or `""`. -/
def headerGet (hs : List (String × String)) (k : String) : String :=
  (hs.lookup k).getD ""

/-- Go `Header.Del` / `url.Values.Del`: remove every entry for the key. -/
def headerDel (hs : List (String × String)) (k : String) : List (String × String) :=
  hs.filter (fun p => p.1 != k)

/-- Go `url.Values.Get`: the first value for the key, or `""`. -/
def queryGet (q : List (String × String)) (k : String) : String :=
  (q.lookup k).getD ""

/-- Model of a session (`model.Session`): the field `ServePluginRequest`
uses. -/
structure Session where
  userId : String
deriving DecidableEq

/-- Uppercase a string (Go `strings.ToUpper`, ASCII suffices here). -/
def strUpper (s : String) : String := String.mk (s.data.map Char.toUpper)

/-- Lowercase a string (Go `strings.ToLower`, ASCII suffices here). -/
def strLower (s : String) : String := String.mk (s.data.map Char.toLower)

/-- Character-list comparison behind `strLeadsWith`. -/
def charsLeadWith : List Char → List Char → Bool
  | _, [] => true
  | [], _ :: _ => false
  | a :: as, b :: bs => a == b && charsLeadWith as bs

/-- Go `strings.HasPrefix s pre`. -/
def strLeadsWith (s pre : String) : Bool :=
  charsLeadWith s.data pre.data

/-- Go `s[n:]` (all inputs here are ASCII, so byte and char indices
agree). -/
def strDrop (s : String) (n : Nat) : String :=
  String.mk (s.data.drop n)

/-- The credential-extraction cascade of `ServePluginRequest`
(`src/app/plugin.go:381-392`): `Authorization: BEARER:...` (case
insensitive on the scheme), else `Authorization: token:...`, else the
session cookie when the method is GET or the request carries the
XMLHttpRequest marker, else the `access_token` query parameter. -/
def extractToken (r : PRequest) : String :=
  let authHeader := headerGet r.headers HEADER_AUTH
  if strLeadsWith (strUpper authHeader) (HEADER_BEARER ++ ":") then
    strDrop authHeader (HEADER_BEARER.length + 1)
  else if strLeadsWith (strLower authHeader) (HEADER_TOKEN ++ ":") then
    strDrop authHeader (HEADER_TOKEN.length + 1)
  else
    match r.cookies.find? (fun c => c.name == SESSION_COOKIE_TOKEN) with
    | some c =>
      if r.method == "GET" ∨ headerGet r.headers HEADER_REQUESTED_WITH = HEADER_REQUESTED_WITH_XML then
        c.value
      else
        queryGet r.query "access_token"
    | none => queryGet r.query "access_token"

/-- The sanitization `ServePluginRequest` performs before dispatch
(`src/app/plugin.go:401-413`): drop the session cookie (keeping the
others), delete the `Authorization` and `Referer` headers, and delete the
`access_token` query parameter. -/
def sanitizeForForward (r : PRequest) : PRequest :=
  { method := r.method
    headers := headerDel (headerDel r.headers HEADER_AUTH) "Referer"
    cookies := r.cookies.filter (fun c => c.name != SESSION_COOKIE_TOKEN)
    query := headerDel r.query "access_token" }

/-- The observable outcome of `ServePluginRequest`: an early error
response, a crash, or a dispatch of the rewritten request to
`PluginEnv.Hooks().ServeHTTP`. -/
inductive ServeOutcome where
  | rejected (status : Nat)
  | crashed
  | dispatched (r : PRequest)
deriving DecidableEq

/-- `App.ServePluginRequest` (`src/app/plugin.go:370-417`).  `envOk`
models `a.PluginEnv != nil && *a.Config().PluginSettings.Enable`;
`getSession` models `a.GetSession` (modelled from the spec: the session
resolver "returns a caller identity or failure", so on failure there is
no session value).  Note the source's identity step
(`src/app/plugin.go:395-399`) sets the `Mattermost-User-Id` header only
in the `err != nil` branch, where `session` is nil and the `session.UserId`
field access faults — modelled as `crashed`; in the `err == nil` branch
the header is left deleted. -/
def servePluginRequest (envOk : Bool) (getSession : String → Except AppError Session)
    (r : PRequest) : ServeOutcome :=
  if envOk = false then .rejected 501
  else
    let token := extractToken r
    let r1 : PRequest := { r with headers := headerDel r.headers "Mattermost-User-Id" }
    let r2opt : Option PRequest :=
      if token = "" then some r1
      else
        match getSession token with
        | .ok _ => some r1
        | .error _ => none
    match r2opt with
    | none => .crashed
    | some r2 => .dispatched (sanitizeForForward r2)

/-! ## Manifests, the installer and the lifecycle reconciler
(`src/app/plugin.go:55-159`) -/

/-- Model of `model.Manifest`: the fields this subsystem reads — the
identifier and whether the plugin declares a client (web app) component
(`manifest.HasClient()`). -/
structure Manifest where
  id : String
  hasClient : Bool
deriving DecidableEq

/-- One entry of `ioutil.ReadDir`. -/
structure DirEntry where
  name : String
  isDir : Bool
deriving DecidableEq

/-- The environment `InstallPlugin` runs against: the subsystem flag, the
outcomes of the temp-dir creation, archive extraction, directory read,
manifest parse (as a function of the chosen bundle root), installed
bundle enumeration, and the final `CopyDir`. -/
structure InstallEnv where
  envOk : Bool
  tempDirOk : Bool
  extractOk : Bool
  readDir : Except String (List DirEntry)
  findManifest : String → Except String Manifest
  bundlesRes : Except String (List Manifest)
  copyOk : Bool

/-- The filesystem state `InstallPlugin` leaves behind: the ids present
under the search path, whether the temporary extraction directory is
still alive, and whether the bundle was copied into the search path. -/
structure FsState where
  searchPath : List String
  tmpLive : Bool
  copied : Bool
deriving DecidableEq

/-- The bundle root chosen from the extraction directory
(`src/app/plugin.go:125-133`): the single top-level directory if there is
exactly one, else the extraction root itself. -/
def bundleRoot (entries : List DirEntry) : String :=
  match entries with
  | [d] => if d.isDir then "tmp/" ++ d.name else "tmp"
  | _ => "tmp"

/-- The duplicate-identifier error of `InstallPlugin`
(`src/app/plugin.go:147`). -/
def installDuplicateIdErr : AppError :=
  ⟨"InstallPlugin", "app.plugin.install_id.app_error", "", 400⟩

/-- `App.InstallPlugin` (`src/app/plugin.go:110-159`).  Every exit path
after the temp directory is created runs the deferred
`os.RemoveAll(tmpDir)`, so `tmpLive` is false on every outcome. -/
def installPlugin (env : InstallEnv) (searchPath : List String) :
    Except AppError Manifest × FsState :=
  if env.envOk = false then
    (.error ⟨"InstallPlugin", "app.plugin.disabled.app_error", "", 501⟩,
     ⟨searchPath, false, false⟩)
  else if env.tempDirOk = false then
    (.error ⟨"InstallPlugin", "app.plugin.filesystem.app_error", "", 500⟩,
     ⟨searchPath, false, false⟩)
  else if env.extractOk = false then
    (.error ⟨"InstallPlugin", "app.plugin.extract.app_error", "", 400⟩,
     ⟨searchPath, false, false⟩)
  else
    match env.readDir with
    | .error e =>
      (.error ⟨"InstallPlugin", "app.plugin.filesystem.app_error", e, 500⟩,
       ⟨searchPath, false, false⟩)
    | .ok entries =>
      match env.findManifest (bundleRoot entries) with
      | .error e =>
        (.error ⟨"InstallPlugin", "app.plugin.manifest.app_error", e, 400⟩,
         ⟨searchPath, false, false⟩)
      | .ok manifest =>
        match env.bundlesRes with
        | .error e =>
          (.error ⟨"InstallPlugin", "app.plugin.install.app_error", e, 500⟩,
           ⟨searchPath, false, false⟩)
        | .ok bundles =>
          if bundles.any (fun b => b.id == manifest.id) then
            (.error installDuplicateIdErr, ⟨searchPath, false, false⟩)
          else if env.copyOk = false then
            (.error ⟨"InstallPlugin", "app.plugin.mvdir.app_error", "", 500⟩,
             ⟨searchPath, false, false⟩)
          else
            (.ok manifest, ⟨searchPath ++ [manifest.id], false, true⟩)

/-! ## The lifecycle reconciler (`App.ActivatePlugins`, `src/app/plugin.go:57-107`)

The plugin environment's primitives are modelled from the spec (§4.4,
`pluginenv` is not among the sources): `IsPluginActive` is membership in
the active set, `ActivatePlugin` adds the id to the active set (or fails
leaving it unchanged), `DeactivatePlugin` removes it (or fails leaving it
unchanged).  `aFail`/`dFail` are the oracles saying which activations /
deactivations fail. -/

/-- A websocket lifecycle notification (`model.NewWebSocketEvent` with
`WEBSOCKET_EVENT_PLUGIN_ACTIVATED` / `..._DEACTIVATED` carrying the
client manifest). -/
inductive WsEvent where
  | pluginActivated (m : Manifest)
  | pluginDeactivated (m : Manifest)
deriving DecidableEq

/-- The plugin id a notification is about. -/
def wsEventPluginId : WsEvent → String
  | .pluginActivated m => m.id
  | .pluginDeactivated m => m.id

/-- An error log line emitted by `ActivatePlugins`. -/
inductive LogEntry where
  | envNotInitialized
  | enumerationFailed (msg : String)
  | activateFailed (id : String)
  | deactivateFailed (id : String)
deriving DecidableEq

/-- The reconciler-visible state: the plugin environment's active set,
the published notifications and the error log. -/
structure ReconcilerState where
  active : List String
  events : List WsEvent
  logs : List LogEntry
deriving DecidableEq

/-- The desired state of a plugin (`src/app/plugin.go:72-75`): the
persisted `PluginStates[id].Enable` flag, defaulting to disabled when the
map has no entry. -/
def pluginEnabled (states : List (String × Bool)) (id : String) : Bool :=
  (states.lookup id).getD false

/-- The all-successful failure oracle (no activation or deactivation
fails). -/
def noFail : String → Bool := fun _ => false

/-- One iteration of the `ActivatePlugins` loop
(`src/app/plugin.go:69-106`) for the plugin `p`: activate if enabled and
inactive (on failure log and continue; on success publish an activated
notification when the manifest has a client component), deactivate
symmetrically if disabled and active, and otherwise do nothing. -/
def reconcileStep (states : List (String × Bool)) (aFail dFail : String → Bool)
    (s : ReconcilerState) (p : Manifest) : ReconcilerState :=
  if pluginEnabled states p.id = true ∧ p.id ∉ s.active then
    if aFail p.id = true then
      { s with logs := s.logs ++ [.activateFailed p.id] }
    else
      { active := s.active ++ [p.id]
        events := s.events ++ (if p.hasClient then [.pluginActivated p] else [])
        logs := s.logs }
  else if pluginEnabled states p.id = false ∧ p.id ∈ s.active then
    if dFail p.id = true then
      { s with logs := s.logs ++ [.deactivateFailed p.id] }
    else
      { active := s.active.filter (fun x => x != p.id)
        events := s.events ++ (if p.hasClient then [.pluginDeactivated p] else [])
        logs := s.logs }
  else s

/-- The `ActivatePlugins` loop over all installed plugins. -/
def reconcileRun (states : List (String × Bool)) (aFail dFail : String → Bool)
    (plugins : List Manifest) (s : ReconcilerState) : ReconcilerState :=
  plugins.foldl (reconcileStep states aFail dFail) s

/-- `App.ActivatePlugins` (`src/app/plugin.go:57-107`): log and return
unchanged when the plugin environment is not initialized or enumeration
fails, otherwise run the reconcile loop from the current active set with
no notifications or logs yet emitted. -/
def activatePlugins (envOk : Bool) (pluginsRes : Except String (List Manifest))
    (states : List (String × Bool)) (aFail dFail : String → Bool)
    (active₀ : List String) : ReconcilerState :=
  if envOk = false then ⟨active₀, [], [.envNotInitialized]⟩
  else
    match pluginsRes with
    | .error e => ⟨active₀, [], [.enumerationFailed e]⟩
    | .ok plugins => reconcileRun states aFail dFail plugins ⟨active₀, [], []⟩

/-- The notification the reconciler is expected to publish for plugin `p`
given the desired states and the active set at the start of the run:
one activated/deactivated event exactly for a successful transition of a
plugin whose manifest declares a client component. -/
def expectedEvent (states : List (String × Bool)) (aFail dFail : String → Bool)
    (activeL : List String) (p : Manifest) : Option WsEvent :=
  if pluginEnabled states p.id = true ∧ p.id ∉ activeL then
    if aFail p.id = true then none
    else if p.hasClient then some (.pluginActivated p) else none
  else if pluginEnabled states p.id = false ∧ p.id ∈ activeL then
    if dFail p.id = true then none
    else if p.hasClient then some (.pluginDeactivated p) else none
  else none

/-- The error log line the reconciler is expected to emit for plugin `p`:
one exactly for a failed transition. -/
def expectedLog (states : List (String × Bool)) (aFail dFail : String → Bool)
    (activeL : List String) (p : Manifest) : Option LogEntry :=
  if pluginEnabled states p.id = true ∧ p.id ∉ activeL then
    if aFail p.id = true then some (.activateFailed p.id) else none
  else if pluginEnabled states p.id = false ∧ p.id ∈ activeL then
    if dFail p.id = true then some (.deactivateFailed p.id) else none
  else none


theorem step_active_mem_ne (states : List (String × Bool)) (aFail dFail : String → Bool)
    (s : ReconcilerState) (p : Manifest) (x : String) (hx : x ≠ p.id) :
    (x ∈ (reconcileStep states aFail dFail s p).active ↔ x ∈ s.active) := by
  unfold reconcileStep
  split_ifs with h1 h2 h3 h4 <;>
    simp [List.mem_append, List.mem_filter, hx, bne_iff_ne]

theorem step_active_mem_self (states : List (String × Bool)) (aFail dFail : String → Bool)
    (s : ReconcilerState) (p : Manifest) :
    (p.id ∈ (reconcileStep states aFail dFail s p).active ↔
      (if pluginEnabled states p.id = true then (p.id ∈ s.active ∨ aFail p.id = false)
       else (p.id ∈ s.active ∧ dFail p.id = true))) := by
  unfold reconcileStep
  by_cases he : pluginEnabled states p.id = true <;>
    by_cases hm : p.id ∈ s.active <;>
    by_cases ha : aFail p.id = true <;>
    by_cases hd : dFail p.id = true <;>
    simp_all [List.mem_append, List.mem_filter]

theorem step_events (states : List (String × Bool)) (aFail dFail : String → Bool)
    (s : ReconcilerState) (p : Manifest) :
    (reconcileStep states aFail dFail s p).events =
      s.events ++ (expectedEvent states aFail dFail s.active p).toList := by
  unfold reconcileStep expectedEvent
  by_cases he : pluginEnabled states p.id = true <;>
    by_cases hm : p.id ∈ s.active <;>
    by_cases ha : aFail p.id = true <;>
    by_cases hd : dFail p.id = true <;>
    by_cases hc : p.hasClient <;>
    simp_all

theorem step_logs (states : List (String × Bool)) (aFail dFail : String → Bool)
    (s : ReconcilerState) (p : Manifest) :
    (reconcileStep states aFail dFail s p).logs =
      s.logs ++ (expectedLog states aFail dFail s.active p).toList := by
  unfold reconcileStep expectedLog
  by_cases he : pluginEnabled states p.id = true <;>
    by_cases hm : p.id ∈ s.active <;>
    by_cases ha : aFail p.id = true <;>
    by_cases hd : dFail p.id = true <;>
    simp_all

theorem run_active_not_mem (states : List (String × Bool)) (aFail dFail : String → Bool)
    (plugins : List Manifest) (s : ReconcilerState) (x : String)
    (hx : x ∉ plugins.map Manifest.id) :
    (x ∈ (reconcileRun states aFail dFail plugins s).active ↔ x ∈ s.active) := by
  induction plugins generalizing s with
  | nil => simp [reconcileRun]
  | cons q qs ih =>
    simp only [List.map_cons, List.mem_cons, not_or] at hx
    show x ∈ (reconcileRun states aFail dFail qs (reconcileStep states aFail dFail s q)).active ↔ _
    rw [ih _ hx.2, step_active_mem_ne _ _ _ _ _ _ hx.1]

theorem run_active_mem (states : List (String × Bool)) (aFail dFail : String → Bool)
    (plugins : List Manifest) (s : ReconcilerState) (p : Manifest)
    (hnd : (plugins.map Manifest.id).Nodup) (hp : p ∈ plugins) :
    (p.id ∈ (reconcileRun states aFail dFail plugins s).active ↔
      (if pluginEnabled states p.id = true then (p.id ∈ s.active ∨ aFail p.id = false)
       else (p.id ∈ s.active ∧ dFail p.id = true))) := by
  induction plugins generalizing s with
  | nil => cases hp
  | cons q qs ih =>
    rw [List.map_cons, List.nodup_cons] at hnd
    rcases List.mem_cons.mp hp with hpq | hpqs
    · subst hpq
      show p.id ∈ (reconcileRun states aFail dFail qs (reconcileStep states aFail dFail s p)).active ↔ _
      rw [run_active_not_mem _ _ _ _ _ _ hnd.1, step_active_mem_self]
    · have hne : p.id ≠ q.id := by
        intro h
        exact hnd.1 (h ▸ List.mem_map_of_mem Manifest.id hpqs)
      show p.id ∈ (reconcileRun states aFail dFail qs (reconcileStep states aFail dFail s q)).active ↔ _
      rw [ih _ hnd.2 hpqs]
      rw [step_active_mem_ne _ _ _ _ _ _ hne]

theorem expectedEvent_congr (states : List (String × Bool)) (aFail dFail : String → Bool)
    (l l' : List String) (p : Manifest) (h : p.id ∈ l ↔ p.id ∈ l') :
    expectedEvent states aFail dFail l p = expectedEvent states aFail dFail l' p := by
  simp only [expectedEvent, h]

theorem expectedLog_congr (states : List (String × Bool)) (aFail dFail : String → Bool)
    (l l' : List String) (p : Manifest) (h : p.id ∈ l ↔ p.id ∈ l') :
    expectedLog states aFail dFail l p = expectedLog states aFail dFail l' p := by
  simp only [expectedLog, h]

theorem run_events (states : List (String × Bool)) (aFail dFail : String → Bool)
    (plugins : List Manifest) (s : ReconcilerState)
    (hnd : (plugins.map Manifest.id).Nodup) :
    (reconcileRun states aFail dFail plugins s).events =
      s.events ++ plugins.filterMap (expectedEvent states aFail dFail s.active) := by
  induction plugins generalizing s with
  | nil => simp [reconcileRun]
  | cons q qs ih =>
    rw [List.map_cons, List.nodup_cons] at hnd
    show (reconcileRun states aFail dFail qs (reconcileStep states aFail dFail s q)).events = _
    rw [ih _ hnd.2]
    have hcg : qs.filterMap (expectedEvent states aFail dFail (reconcileStep states aFail dFail s q).active) =
        qs.filterMap (expectedEvent states aFail dFail s.active) := by
      apply List.filterMap_congr
      intro r hr
      apply expectedEvent_congr
      apply step_active_mem_ne
      intro h
      exact hnd.1 (h ▸ List.mem_map_of_mem Manifest.id hr)
    rw [hcg, step_events]
    cases hq : expectedEvent states aFail dFail s.active q <;>
      simp [List.filterMap_cons, hq, List.append_assoc]

theorem run_logs (states : List (String × Bool)) (aFail dFail : String → Bool)
    (plugins : List Manifest) (s : ReconcilerState)
    (hnd : (plugins.map Manifest.id).Nodup) :
    (reconcileRun states aFail dFail plugins s).logs =
      s.logs ++ plugins.filterMap (expectedLog states aFail dFail s.active) := by
  induction plugins generalizing s with
  | nil => simp [reconcileRun]
  | cons q qs ih =>
    rw [List.map_cons, List.nodup_cons] at hnd
    show (reconcileRun states aFail dFail qs (reconcileStep states aFail dFail s q)).logs = _
    rw [ih _ hnd.2]
    have hcg : qs.filterMap (expectedLog states aFail dFail (reconcileStep states aFail dFail s q).active) =
        qs.filterMap (expectedLog states aFail dFail s.active) := by
      apply List.filterMap_congr
      intro r hr
      apply expectedLog_congr
      apply step_active_mem_ne
      intro h
      exact hnd.1 (h ▸ List.mem_map_of_mem Manifest.id hr)
    rw [hcg, step_logs]
    cases hq : expectedLog states aFail dFail s.active q <;>
      simp [List.filterMap_cons, hq, List.append_assoc]

theorem run_fixpoint (states : List (String × Bool)) (aFail dFail : String → Bool)
    (plugins : List Manifest) (s : ReconcilerState)
    (hfix : ∀ p ∈ plugins, (pluginEnabled states p.id = true ↔ p.id ∈ s.active)) :
    reconcileRun states aFail dFail plugins s = s := by
  induction plugins with
  | nil => rfl
  | cons q qs ih =>
    have hq := hfix q (List.mem_cons_self q qs)
    have hstep : reconcileStep states aFail dFail s q = s := by
      unfold reconcileStep
      by_cases he : pluginEnabled states q.id = true <;>
        by_cases hm : q.id ∈ s.active <;> simp_all
    show reconcileRun states aFail dFail qs (reconcileStep states aFail dFail s q) = s
    rw [hstep]
    exact ih (fun p hp => hfix p (List.mem_cons_of_mem q hp))

theorem activatePlugins_ok (states : List (String × Bool)) (aFail dFail : String → Bool)
    (plugins : List Manifest) (active₀ : List String) :
    activatePlugins true (.ok plugins) states aFail dFail active₀ =
      reconcileRun states aFail dFail plugins ⟨active₀, [], []⟩ := rfl

/-- C1: a single `ActivatePlugins` run makes the active set equal the set
of installed plugins whose persisted state flag is enabled (absent
entries default to disabled), publishes an activated/deactivated
notification for a transition exactly when the plugin's manifest declares
a client component (matching plugins are untouched with no notification),
and an immediately repeated run changes no state and publishes nothing. -/
theorem reconcile_matches_desired_state (plugins : List Manifest)
    (states : List (String × Bool)) (active₀ : List String)
    (hnd : (plugins.map Manifest.id).Nodup)
    (hsub : ∀ x ∈ active₀, x ∈ plugins.map Manifest.id) :
    (∀ x, x ∈ (activatePlugins true (.ok plugins) states noFail noFail active₀).active ↔
       (x ∈ plugins.map Manifest.id ∧ pluginEnabled states x = true))
    ∧ (activatePlugins true (.ok plugins) states noFail noFail active₀).events =
        plugins.filterMap (expectedEvent states noFail noFail active₀)
    ∧ (activatePlugins true (.ok plugins) states noFail noFail active₀).logs = []
    ∧ activatePlugins true (.ok plugins) states noFail noFail
        (activatePlugins true (.ok plugins) states noFail noFail active₀).active =
      ⟨(activatePlugins true (.ok plugins) states noFail noFail active₀).active, [], []⟩ := by
  rw [activatePlugins_ok, activatePlugins_ok]
  have hmem : ∀ x, x ∈ (reconcileRun states noFail noFail plugins ⟨active₀, [], []⟩).active ↔
      (x ∈ plugins.map Manifest.id ∧ pluginEnabled states x = true) := by
    intro x
    by_cases hx : x ∈ plugins.map Manifest.id
    · obtain ⟨p, hp, hpid⟩ := List.mem_map.mp hx
      subst hpid
      rw [run_active_mem states noFail noFail plugins ⟨active₀, [], []⟩ p hnd hp]
      cases he : pluginEnabled states p.id <;> simp [he, hx, noFail]
    · rw [run_active_not_mem states noFail noFail plugins ⟨active₀, [], []⟩ x hx]
      simp only [hx, false_and, iff_false]
      exact fun hmem => hx (hsub x hmem)
  refine ⟨hmem, ?_, ?_, ?_⟩
  · rw [run_events states noFail noFail plugins ⟨active₀, [], []⟩ hnd]
    rfl
  · rw [run_logs states noFail noFail plugins ⟨active₀, [], []⟩ hnd]
    rw [List.nil_append, List.filterMap_eq_nil_iff]
    intro p hp
    simp [expectedLog, noFail]
  · apply run_fixpoint
    intro p hp
    rw [hmem p.id]
    simp [List.mem_map.mpr ⟨p, hp, rfl⟩]

theorem reconcile_matches_desired_state_witness :
    ((([⟨"A", true⟩, ⟨"B", true⟩] : List Manifest).map Manifest.id).Nodup
      ∧ (∀ x ∈ ["B"], x ∈ ([⟨"A", true⟩, ⟨"B", true⟩] : List Manifest).map Manifest.id))
    ∧ ("A" ∈ (activatePlugins true (.ok [⟨"A", true⟩, ⟨"B", true⟩]) [("A", true)] noFail noFail ["B"]).active ↔
        ("A" ∈ ([⟨"A", true⟩, ⟨"B", true⟩] : List Manifest).map Manifest.id
          ∧ pluginEnabled [("A", true)] "A" = true))
    ∧ (activatePlugins true (.ok [⟨"A", true⟩, ⟨"B", true⟩]) [("A", true)] noFail noFail ["B"]).events =
        ([⟨"A", true⟩, ⟨"B", true⟩] : List Manifest).filterMap
          (expectedEvent [("A", true)] noFail noFail ["B"]) :=
  have h := reconcile_matches_desired_state [⟨"A", true⟩, ⟨"B", true⟩] [("A", true)] ["B"]
    (by decide) (by decide)
  ⟨⟨by decide, by decide⟩, h.1 "A", h.2.1⟩


theorem expectedEvent_some_id (states : List (String × Bool)) (aFail dFail : String → Bool)
    (l : List String) (q : Manifest) (e : WsEvent)
    (h : expectedEvent states aFail dFail l q = some e) : wsEventPluginId e = q.id := by
  unfold expectedEvent at h
  split_ifs at h <;> cases h <;> rfl

theorem nodup_map_id_inj (plugins : List Manifest) (p q : Manifest)
    (hnd : (plugins.map Manifest.id).Nodup) (hp : p ∈ plugins) (hq : q ∈ plugins)
    (h : q.id = p.id) : q = p :=
  List.inj_on_of_nodup_map hnd hq hp h

/-- C8: during a reconciliation pass, an activation or deactivation
failure for one plugin leaves that plugin's activation state unchanged,
publishes no notification for it, logs (rather than raises) the failure,
and does not prevent every remaining installed plugin from being
reconciled. -/
theorem reconcile_failure_isolation (plugins : List Manifest)
    (states : List (String × Bool)) (aFail dFail : String → Bool)
    (active₀ : List String) (p : Manifest)
    (hnd : (plugins.map Manifest.id).Nodup) (hp : p ∈ plugins)
    (hfail : (pluginEnabled states p.id = true ∧ p.id ∉ active₀ ∧ aFail p.id = true)
           ∨ (pluginEnabled states p.id = false ∧ p.id ∈ active₀ ∧ dFail p.id = true)) :
    ((p.id ∈ (activatePlugins true (.ok plugins) states aFail dFail active₀).active ↔ p.id ∈ active₀)
    ∧ (∀ e ∈ (activatePlugins true (.ok plugins) states aFail dFail active₀).events,
        wsEventPluginId e ≠ p.id)
    ∧ (if pluginEnabled states p.id = true then LogEntry.activateFailed p.id
       else LogEntry.deactivateFailed p.id) ∈
        (activatePlugins true (.ok plugins) states aFail dFail active₀).logs
    ∧ (∀ q ∈ plugins, q.id ≠ p.id → aFail q.id = false → dFail q.id = false →
        (q.id ∈ (activatePlugins true (.ok plugins) states aFail dFail active₀).active ↔
          pluginEnabled states q.id = true))) := by
  rw [activatePlugins_ok]
  have hnone : expectedEvent states aFail dFail active₀ p = none := by
    rcases hfail with ⟨he, hm, hf⟩ | ⟨he, hm, hf⟩ <;> simp [expectedEvent, he, hm, hf]
  refine ⟨?_, ?_, ?_, ?_⟩
  · rw [run_active_mem states aFail dFail plugins ⟨active₀, [], []⟩ p hnd hp]
    rcases hfail with ⟨he, hm, hf⟩ | ⟨he, hm, hf⟩ <;> simp [he, hm, hf]
  · intro e hee
    rw [run_events states aFail dFail plugins ⟨active₀, [], []⟩ hnd, List.nil_append] at hee
    obtain ⟨q, hq, hfq⟩ := List.mem_filterMap.mp hee
    intro heq
    have hqid : q.id = p.id := (expectedEvent_some_id _ _ _ _ _ _ hfq) ▸ heq
    have : q = p := nodup_map_id_inj plugins p q hnd hp hq hqid
    subst this
    rw [hnone] at hfq
    cases hfq
  · rw [run_logs states aFail dFail plugins ⟨active₀, [], []⟩ hnd, List.nil_append]
    apply List.mem_filterMap.mpr
    refine ⟨p, hp, ?_⟩
    rcases hfail with ⟨he, hm, hf⟩ | ⟨he, hm, hf⟩ <;> simp [expectedLog, he, hm, hf]
  · intro q hq hne haq hdq
    rw [run_active_mem states aFail dFail plugins ⟨active₀, [], []⟩ q hnd hq]
    cases he : pluginEnabled states q.id <;> simp [he, haq, hdq]

theorem reconcile_failure_isolation_witness :
    ((([⟨"A", true⟩, ⟨"B", false⟩] : List Manifest).map Manifest.id).Nodup
      ∧ (⟨"A", true⟩ : Manifest) ∈ ([⟨"A", true⟩, ⟨"B", false⟩] : List Manifest)
      ∧ (pluginEnabled [("A", true), ("B", true)] "A" = true ∧ "A" ∉ ([] : List String)
          ∧ (fun i => i == "A") "A" = true))
    ∧ ("A" ∈ (activatePlugins true (.ok [⟨"A", true⟩, ⟨"B", false⟩]) [("A", true), ("B", true)]
          (fun i => i == "A") noFail []).active ↔ "A" ∈ ([] : List String))
    ∧ (if pluginEnabled [("A", true), ("B", true)] "A" = true then LogEntry.activateFailed "A"
       else LogEntry.deactivateFailed "A") ∈
        (activatePlugins true (.ok [⟨"A", true⟩, ⟨"B", false⟩]) [("A", true), ("B", true)]
          (fun i => i == "A") noFail []).logs
    ∧ ("B" ∈ (activatePlugins true (.ok [⟨"A", true⟩, ⟨"B", false⟩]) [("A", true), ("B", true)]
          (fun i => i == "A") noFail []).active ↔ pluginEnabled [("A", true), ("B", true)] "B" = true) :=
  have h := reconcile_failure_isolation [⟨"A", true⟩, ⟨"B", false⟩] [("A", true), ("B", true)]
    (fun i => i == "A") noFail [] ⟨"A", true⟩ (by decide) (by decide) (Or.inl (by decide))
  ⟨⟨by decide, by decide, by decide⟩, h.1, h.2.2.1,
    h.2.2.2 ⟨"B", false⟩ (by decide) (by decide) (by decide) (by decide)⟩


/-- C2 counterexample: the distinct valid pairs `("ab", "c")` and
`("a", "bc")` (all components non-empty) hash to the identical key,
because `getKeyHash` hashes the plain concatenation `pluginId + key`. -/
theorem hash_distinct_pairs_collide : (("ab", "c") ≠ (("a", "bc") : String × String))
    ∧ getKeyHash "ab" "c" = getKeyHash "a" "bc"
    ∧ getKeyHash "ab" "c" = .ok "po1iLOyLWCKDbbx5d69/Ow==" :=
  ⟨by decide, by decide, by decide⟩

/-- C2 (amended): the key hasher is deterministic — its output is a pure
function of its inputs, and in fact depends only on the concatenation
`extensionId ++ rawKey` — so identical inputs always produce identical
output, but distinct valid pairs with equal concatenation collide. -/
theorem hash_determined_by_concatenation (p k p' k' : String)
    (hp : p.isEmpty = false) (hk : k.isEmpty = false)
    (hp' : p'.isEmpty = false) (hk' : k'.isEmpty = false)
    (hcat : p ++ k = p' ++ k') :
    getKeyHash p k = getKeyHash p' k' ∧ (∃ h, getKeyHash p k = .ok h) := by
  unfold getKeyHash
  rw [hcat]
  simp only [hp, hk, hp', hk', Bool.false_eq_true, if_false]
  exact ⟨trivial, _, rfl⟩

theorem hash_determined_by_concatenation_witness :
    (("ab" : String).isEmpty = false ∧ ("c" : String).isEmpty = false
      ∧ ("a" : String).isEmpty = false ∧ ("bc" : String).isEmpty = false
      ∧ "ab" ++ "c" = "a" ++ "bc")
    ∧ (getKeyHash "ab" "c" = getKeyHash "a" "bc" ∧ ∃ h, getKeyHash "ab" "c" = .ok h) :=
  ⟨⟨by decide, by decide, by decide, by decide, by decide⟩,
    hash_determined_by_concatenation "ab" "c" "a" "bc"
      (by decide) (by decide) (by decide) (by decide) (by decide)⟩

/-- C9: an empty extension id or raw key makes the key hasher — and hence
`SetPluginKey`, `GetPluginKey`, `DeletePluginKey` — fail with the 400
(invalid-argument) error without any storage access, and the hasher
succeeds on all non-empty inputs. -/
theorem hash_rejects_empty_components :
    (∀ p k : String, p.isEmpty = true →
        getKeyHash p k = .error ⟨"getKeyHash", "app.plugin.key_value.plugin_id.app_error", "", 400⟩)
    ∧ (∀ p k : String, p.isEmpty = false → k.isEmpty = true →
        getKeyHash p k = .error ⟨"getKeyHash", "app.plugin.key_value.key.app_error", "", 400⟩)
    ∧ (∀ (p k : String) (e : AppError), getKeyHash p k = .error e →
        ∀ (v : List Nat) (driver : String) (uRes : Except DbErr Nat)
          (iRes upsRes : Except DbErr Unit) (isU : DbErr → Bool)
          (table : List PluginKeyValue) (dbFail : Option String),
          setPluginKey p k v driver uRes iRes upsRes isU = (some e, [])
          ∧ getPluginKey p k table dbFail = (.error e, [])
          ∧ deletePluginKey p k table dbFail = ((some e, table), []))
    ∧ (∀ p k : String, p.isEmpty = false → k.isEmpty = false →
        ∃ h, getKeyHash p k = .ok h) := by
  refine ⟨?_, ?_, ?_, ?_⟩
  · intro p k hp
    simp [getKeyHash, hp]
  · intro p k hp hk
    simp [getKeyHash, hp, hk]
  · intro p k e he v driver uRes iRes upsRes isU table dbFail
    refine ⟨?_, ?_, ?_⟩ <;> simp [setPluginKey, getPluginKey, deletePluginKey, he]
  · intro p k hp hk
    simp only [getKeyHash, hp, hk, Bool.false_eq_true, if_false]
    exact ⟨_, rfl⟩

theorem hash_rejects_empty_components_witness :
    (("" : String).isEmpty = true
      ∧ getKeyHash "" "k" = .error ⟨"getKeyHash", "app.plugin.key_value.plugin_id.app_error", "", 400⟩)
    ∧ (getKeyHash "" "k" = .error ⟨"getKeyHash", "app.plugin.key_value.plugin_id.app_error", "", 400⟩
      ∧ (setPluginKey "" "k" [] "postgres" (.ok 1) (.ok ()) (.ok ()) (fun _ => false) =
          (some ⟨"getKeyHash", "app.plugin.key_value.plugin_id.app_error", "", 400⟩, [])
        ∧ getPluginKey "" "k" [] none =
            (.error ⟨"getKeyHash", "app.plugin.key_value.plugin_id.app_error", "", 400⟩, [])
        ∧ deletePluginKey "" "k" [] none =
            ((some ⟨"getKeyHash", "app.plugin.key_value.plugin_id.app_error", "", 400⟩, []), [])))
    ∧ (("p" : String).isEmpty = false ∧ ("k" : String).isEmpty = false
      ∧ ∃ h, getKeyHash "p" "k" = .ok h) :=
  have h3 := hash_rejects_empty_components.2.2.1 "" "k"
    ⟨"getKeyHash", "app.plugin.key_value.plugin_id.app_error", "", 400⟩
    (hash_rejects_empty_components.1 "" "k" (by decide))
    [] "postgres" (.ok 1) (.ok ()) (.ok ()) (fun _ => false) [] none
  ⟨⟨by decide, hash_rejects_empty_components.1 "" "k" (by decide)⟩,
    ⟨hash_rejects_empty_components.1 "" "k" (by decide), h3⟩,
    ⟨by decide, by decide, hash_rejects_empty_components.2.2.2 "p" "k" (by decide) (by decide)⟩⟩

/-- C3: on the PostgreSQL branch of `SaveOrUpdate`, an update error
surfaces as a storage error; a non-zero-row update is success with no
insert attempted; a zero-row update is followed by an insert whose
uniqueness violation is reported as success (a concurrent `Set` winning
the race never fails the call), whose any other failure surfaces as a
storage error, and whose success is success. -/
theorem postgres_upsert_race_tolerant (kv : PluginKeyValue) (hv : kv.isValid = none)
    (isU : DbErr → Bool) :
    (∀ (e : DbErr) (iRes upsRes : Except DbErr Unit),
        saveOrUpdate DATABASE_DRIVER_POSTGRES (.error e) iRes upsRes isU kv =
          ({ err := some (pluginSaveErr e.msg), data := none }, [.update]))
    ∧ (∀ (n : Nat) (iRes upsRes : Except DbErr Unit), n ≠ 0 →
        saveOrUpdate DATABASE_DRIVER_POSTGRES (.ok n) iRes upsRes isU kv =
          ({ err := none, data := some (.kv kv) }, [.update]))
    ∧ (∀ (e : DbErr) (upsRes : Except DbErr Unit), isU e = true →
        saveOrUpdate DATABASE_DRIVER_POSTGRES (.ok 0) (.error e) upsRes isU kv =
          ({ err := none, data := some (.kv kv) }, [.update, .insert]))
    ∧ (∀ (e : DbErr) (upsRes : Except DbErr Unit), isU e = false →
        saveOrUpdate DATABASE_DRIVER_POSTGRES (.ok 0) (.error e) upsRes isU kv =
          ({ err := some (pluginSaveErr e.msg), data := none }, [.update, .insert]))
    ∧ (∀ upsRes : Except DbErr Unit,
        saveOrUpdate DATABASE_DRIVER_POSTGRES (.ok 0) (.ok ()) upsRes isU kv =
          ({ err := none, data := some (.kv kv) }, [.update, .insert])) := by
  refine ⟨?_, ?_, ?_, ?_, ?_⟩
  · intro e iRes upsRes
    simp [saveOrUpdate, hv]
  · intro n iRes upsRes hn
    simp [saveOrUpdate, hv, hn]
  · intro e upsRes hiu
    simp [saveOrUpdate, hv, hiu]
  · intro e upsRes hiu
    simp [saveOrUpdate, hv, hiu]
  · intro upsRes
    simp [saveOrUpdate, hv]

theorem postgres_upsert_race_tolerant_witness :
    ((⟨"K", [1]⟩ : PluginKeyValue).isValid = none
      ∧ (fun _ : DbErr => true) ⟨"unique"⟩ = true)
    ∧ saveOrUpdate DATABASE_DRIVER_POSTGRES (.ok 0) (.error ⟨"unique"⟩) (.ok ())
        (fun _ => true) ⟨"K", [1]⟩ =
      ({ err := none, data := some (.kv ⟨"K", [1]⟩) }, [.update, .insert]) :=
  ⟨⟨by decide, by decide⟩,
    (postgres_upsert_race_tolerant ⟨"K", [1]⟩ (by decide) (fun _ => true)).2.2.1
      ⟨"unique"⟩ (.ok ()) (by decide)⟩

/-- C10: with a driver that is neither the PostgreSQL nor the MySQL
driver, `SaveOrUpdate` on a valid record issues no database call at all
yet reports success with the record as result data. -/
theorem unknown_driver_silent_success (kv : PluginKeyValue) (hv : kv.isValid = none)
    (driver : String) (hpg : driver ≠ DATABASE_DRIVER_POSTGRES)
    (hmy : driver ≠ DATABASE_DRIVER_MYSQL) (uRes : Except DbErr Nat)
    (iRes upsRes : Except DbErr Unit) (isU : DbErr → Bool) :
    saveOrUpdate driver uRes iRes upsRes isU kv =
      ({ err := none, data := some (.kv kv) }, []) := by
  simp [saveOrUpdate, hv, hpg, hmy]

theorem unknown_driver_silent_success_witness :
    ((⟨"K", [1]⟩ : PluginKeyValue).isValid = none
      ∧ "sqlite3" ≠ DATABASE_DRIVER_POSTGRES ∧ "sqlite3" ≠ DATABASE_DRIVER_MYSQL)
    ∧ saveOrUpdate "sqlite3" (.ok 1) (.ok ()) (.ok ()) (fun _ => false) ⟨"K", [1]⟩ =
      ({ err := none, data := some (.kv ⟨"K", [1]⟩) }, []) :=
  ⟨⟨by decide, by decide, by decide⟩,
    unknown_driver_silent_success ⟨"K", [1]⟩ (by decide) "sqlite3" (by decide) (by decide)
      (.ok 1) (.ok ()) (.ok ()) (fun _ => false)⟩

theorem tableFind_filter_self (table : List PluginKeyValue) (h : String) :
    tableFind (table.filter (fun r => r.key != h)) h = none := by
  unfold tableFind
  rw [List.find?_eq_none]
  intro r hr
  have := (List.mem_filter.mp hr).2
  simp only [bne_iff_ne, ne_eq, decide_eq_true_eq] at this
  simp [this]

/-- C7: with the database reachable, `GetPluginKey` on a key that is
absent from the table (never set, or just deleted) returns a nil value
with no error, `DeletePluginKey` succeeds whether or not the key exists,
and a genuine database failure surfaces from both as a 500 error. -/
theorem kv_absence_not_error (p k : String) (table : List PluginKeyValue)
    (hsh : String) (hh : getKeyHash p k = .ok hsh)
    (habs : tableFind table hsh = none) :
    ((getPluginKey p k table none).1 = .ok none)
    ∧ ((deletePluginKey p k table none).1.1 = none)
    ∧ ((getPluginKey p k ((deletePluginKey p k table none).1.2) none).1 = .ok none)
    ∧ (∀ m : String, ∃ e : AppError,
        (getPluginKey p k table (some m)).1 = .error e ∧ e.statusCode = 500)
    ∧ (∀ m : String, ∃ e : AppError,
        (deletePluginKey p k table (some m)).1.1 = some e ∧ e.statusCode = 500) := by
  refine ⟨?_, ?_, ?_, ?_, ?_⟩
  · simp [getPluginKey, hh, sqlPluginGet, habs]
  · simp [deletePluginKey, hh, sqlPluginDelete]
  · simp [getPluginKey, deletePluginKey, hh, sqlPluginGet, sqlPluginDelete,
      tableFind_filter_self]
  · intro m
    refine ⟨⟨"SqlPluginStore.Get", "store.sql_plugin_store.get.app_error",
      "key=" ++ hsh ++ ", err=" ++ m, 500⟩, ?_, rfl⟩
    simp [getPluginKey, hh, sqlPluginGet]
  · intro m
    refine ⟨⟨"SqlPluginStore.Delete", "store.sql_plugin_store.delete.app_error",
      "key=" ++ hsh ++ ", err=" ++ m, 500⟩, ?_, rfl⟩
    simp [deletePluginKey, hh, sqlPluginDelete]

theorem kv_absence_not_error_witness :
    (getKeyHash "p" "k" = .ok "CICVbsSrG+laoHMwVdCWTA=="
      ∧ tableFind [] "CICVbsSrG+laoHMwVdCWTA==" = none)
    ∧ ((getPluginKey "p" "k" [] none).1 = .ok none)
    ∧ ((deletePluginKey "p" "k" [] none).1.1 = none)
    ∧ ((getPluginKey "p" "k" ((deletePluginKey "p" "k" [] none).1.2) none).1 = .ok none) :=
  have h := kv_absence_not_error "p" "k" [] "CICVbsSrG+laoHMwVdCWTA==" (by decide) rfl
  ⟨⟨by decide, rfl⟩, h.1, h.2.1, h.2.2.1⟩

/-- C6: installing an archive whose manifest identifier is already
installed fails with the duplicate-id error, copies nothing, leaves the
search path untouched, and the temporary extraction directory is
removed. -/
theorem install_duplicate_id_rejected (env : InstallEnv) (searchPath : List String)
    (entries : List DirEntry) (m : Manifest) (bundles : List Manifest)
    (h1 : env.envOk = true) (h2 : env.tempDirOk = true) (h3 : env.extractOk = true)
    (h4 : env.readDir = .ok entries)
    (h5 : env.findManifest (bundleRoot entries) = .ok m)
    (h6 : env.bundlesRes = .ok bundles)
    (h7 : bundles.any (fun b => b.id == m.id) = true) :
    installPlugin env searchPath =
      (.error installDuplicateIdErr, ⟨searchPath, false, false⟩) := by
  simp [installPlugin, h1, h2, h3, h4, h5, h6, h7]

theorem install_duplicate_id_rejected_witness :
    (({ envOk := true, tempDirOk := true, extractOk := true, readDir := .ok [],
        findManifest := fun _ => .ok ⟨"X", false⟩, bundlesRes := .ok [⟨"X", true⟩],
        copyOk := true } : InstallEnv).envOk = true
      ∧ (([⟨"X", true⟩] : List Manifest).any (fun b => b.id == ("X" : String)) = true))
    ∧ installPlugin
        { envOk := true, tempDirOk := true, extractOk := true, readDir := .ok [],
          findManifest := fun _ => .ok ⟨"X", false⟩, bundlesRes := .ok [⟨"X", true⟩],
          copyOk := true } ["X"] =
      (.error installDuplicateIdErr, ⟨["X"], false, false⟩) :=
  ⟨⟨rfl, by decide⟩,
    install_duplicate_id_rejected
      { envOk := true, tempDirOk := true, extractOk := true, readDir := .ok [],
        findManifest := fun _ => .ok ⟨"X", false⟩, bundlesRes := .ok [⟨"X", true⟩],
        copyOk := true } ["X"] [] ⟨"X", false⟩ [⟨"X", true⟩]
      rfl rfl rfl rfl rfl rfl (by decide)⟩

/-- C4 (code bug evaluation): `ServePluginRequest` with a credential that
resolves to a valid session dispatches the request with no
`Mattermost-User-Id` header attached — the source's `err != nil` check
(`src/app/plugin.go:396`) is inverted, so the identity is never attached
on successful resolution — and with a credential whose resolution fails
the handler faults on the nil session instead of proceeding. -/
theorem session_identity_never_attached :
    servePluginRequest true
      (fun t => if t == "tok1" then .ok ⟨"user1"⟩
                else .error ⟨"GetSession", "app.session.get.app_error", "", 401⟩)
      ⟨"GET", [(HEADER_AUTH, "BEARER:tok1")], [], []⟩ =
      .dispatched ⟨"GET", [], [], []⟩
    ∧ (([] : List (String × String)).lookup "Mattermost-User-Id" = none)
    ∧ servePluginRequest true
        (fun t => if t == "tok1" then .ok ⟨"user1"⟩
                  else .error ⟨"GetSession", "app.session.get.app_error", "", 401⟩)
        ⟨"GET", [(HEADER_AUTH, "BEARER:bad")], [], []⟩ = .crashed :=
  ⟨by decide, rfl, by decide⟩

theorem lookup_filter_ne (l : List (String × String)) (k k' : String) :
    (l.filter (fun p => p.1 != k)).lookup k' = if k' = k then none else l.lookup k' := by
  induction l with
  | nil =>
    by_cases h : k' = k <;> simp [h]
  | cons a as ih =>
    obtain ⟨a1, a2⟩ := a
    rw [List.filter_cons]
    by_cases hak : a1 = k
    · have hb : (((a1, a2) : String × String).1 != k) = false := by simp [bne_iff_ne, hak]
      rw [hb]
      simp only [Bool.false_eq_true, if_false]
      rw [ih]
      by_cases hk : k' = k
      · simp [hk]
      · have hka : (k' == a1) = false := by
          simp only [beq_eq_false_iff_ne, ne_eq]
          exact fun hh => hk (hh.trans hak)
        simp [List.lookup, hk, hka]
    · have hb : (((a1, a2) : String × String).1 != k) = true := by simp [bne_iff_ne, hak]
      rw [hb]
      simp only [if_pos]
      by_cases hka : k' = a1
      · have hbka : (k' == a1) = true := by simp [beq_iff_eq, hka]
        have hk : ¬k' = k := fun hh => hak (hka.symm.trans hh)
        simp [List.lookup, hbka, hk]
      · have hbka : (k' == a1) = false := by simp [beq_eq_false_iff_ne, hka]
        simp only [List.lookup, hbka]
        rw [ih]

theorem lookup_headerDel (l : List (String × String)) (k k' : String) :
    (headerDel l k).lookup k' = if k' = k then none else l.lookup k' :=
  lookup_filter_ne l k k'

theorem serve_dispatched_shape (envOk : Bool) (gs : String → Except AppError Session)
    (r rr : PRequest) (h : servePluginRequest envOk gs r = .dispatched rr) :
    ∃ hs, rr = sanitizeForForward ⟨r.method, hs, r.cookies, r.query⟩ := by
  unfold servePluginRequest at h
  split at h
  · exact ServeOutcome.noConfusion h
  · dsimp only at h
    split at h
    · exact ServeOutcome.noConfusion h
    · rename_i r2 heq
      injection h with h2
      subst h2
      refine ⟨headerDel r.headers "Mattermost-User-Id", ?_⟩
      split at heq
      · injection heq with heq2
        subst heq2
        rfl
      · split at heq
        · injection heq with heq2
          subst heq2
          rfl
        · exact Option.noConfusion heq

/-- C5: every request the router dispatches to the plugin hook layer
carries no `Authorization` header, no session-token cookie (all other
cookies preserved in order), and no `access_token` query parameter. -/
theorem serve_strips_credentials (envOk : Bool) (gs : String → Except AppError Session)
    (r rr : PRequest) (h : servePluginRequest envOk gs r = .dispatched rr) :
    rr.headers.lookup HEADER_AUTH = none
    ∧ rr.cookies = r.cookies.filter (fun c => c.name != SESSION_COOKIE_TOKEN)
    ∧ rr.query.lookup "access_token" = none := by
  obtain ⟨hs, hrr⟩ := serve_dispatched_shape envOk gs r rr h
  subst hrr
  refine ⟨?_, rfl, ?_⟩
  · show (headerDel (headerDel hs HEADER_AUTH) "Referer").lookup HEADER_AUTH = none
    rw [lookup_headerDel, if_neg (by decide), lookup_headerDel, if_pos rfl]
  · show (headerDel r.query "access_token").lookup "access_token" = none
    rw [lookup_headerDel, if_pos rfl]

theorem serve_strips_credentials_witness :
    servePluginRequest true
      (fun t => if t == "tok1" then .ok ⟨"user1"⟩ else .error ⟨"GetSession", "e", "", 401⟩)
      ⟨"GET", [("Authorization", "BEARER:tok1"), ("Referer", "http://x")],
        [⟨"MMAUTHTOKEN", "s1"⟩, ⟨"theme", "dark"⟩], [("access_token", "q1"), ("page", "1")]⟩ =
      .dispatched ⟨"GET", [], [⟨"theme", "dark"⟩], [("page", "1")]⟩
    ∧ ((⟨"GET", [], [⟨"theme", "dark"⟩], [("page", "1")]⟩ : PRequest).headers.lookup HEADER_AUTH = none
      ∧ (⟨"GET", [], [⟨"theme", "dark"⟩], [("page", "1")]⟩ : PRequest).cookies =
          ([⟨"MMAUTHTOKEN", "s1"⟩, ⟨"theme", "dark"⟩] : List Cookie).filter
            (fun c => c.name != SESSION_COOKIE_TOKEN)
      ∧ (⟨"GET", [], [⟨"theme", "dark"⟩], [("page", "1")]⟩ : PRequest).query.lookup "access_token" = none) :=
  ⟨by decide,
    serve_strips_credentials true
      (fun t => if t == "tok1" then .ok ⟨"user1"⟩ else .error ⟨"GetSession", "e", "", 401⟩)
      ⟨"GET", [("Authorization", "BEARER:tok1"), ("Referer", "http://x")],
        [⟨"MMAUTHTOKEN", "s1"⟩, ⟨"theme", "dark"⟩], [("access_token", "q1"), ("page", "1")]⟩
      ⟨"GET", [], [⟨"theme", "dark"⟩], [("page", "1")]⟩ (by decide)⟩

end Mattermost
